import Mathlib

/-!
Verification development for the credential and session lifecycle engine.

The model embeds `src/Backend/src/services/auth.service.js` together with the
`UserLogin` mongoose model (`models/userLogin.model.js`).  Times are naturals
(milliseconds since epoch).  JWT signing is abstracted: operations that mint a
token take the freshly signed token string as an explicit argument.  Password
hashing is abstracted by storing the secret itself in the `password` field and
modelling `comparePassword` as string equality.  Absent JavaScript values
(`null` / `undefined`) are `Option.none`; a missing `deviceId` string argument
is modelled by the empty string, which is exactly the set of falsy strings in
JavaScript.
-/

/-- One entry of the `refreshTokens` audit array of the `UserLogin` schema. -/
structure RefreshTokenEntry where
  token : String
  deviceId : String
  createdAt : Nat
deriving Repr, DecidableEq

/-- One entry of a device's `loginHistory` array. -/
structure LoginHistoryEntry where
  loginAt : Nat
  logoutAt : Option Nat
deriving Repr, DecidableEq

/-- One entry of the `loggedInDevices` array of the `UserLogin` schema. -/
structure DeviceSession where
  deviceId : String
  ipAddress : Option String
  userAgent : Option String
  loginCount : Nat
  refreshToken : Option String
  loginHistory : List LoginHistoryEntry
deriving Repr, DecidableEq

/-- The `UserLogin` document (credential record).  The `user` and `username`
fields are omitted: record resolution is abstracted away and every operation
receives the resolved record directly. -/
structure UserLogin where
  password : String
  refreshTokens : List RefreshTokenEntry
  failedLoginAttempts : Nat
  lockLevel : Nat
  lockUntil : Option Nat
  isPermanentlyLocked : Bool
  isLoggedIn : Bool
  lastLogin : Option Nat
  loggedInDevices : List DeviceSession
deriving Repr, DecidableEq

/-- The fields of the external `User` document that `authService.login`
consults after password verification (`canLogin` and `isActive`). -/
structure UserExt where
  canLogin : Bool
  isActive : Bool
deriving Repr, DecidableEq

/-- Error taxonomy of the login path of `authService.login`. -/
inductive LoginError where
  | invalidCredentials
  | accountLockedPermanent
  | accountLockedTemporary (remainingMinutes : Nat)
  | associatedUserNotFound
  | loginDisabled
deriving Repr, DecidableEq

/-- Failure threshold of the lockout escalation (hard-coded `5` in
`authService.login`). -/
def failureThreshold : Nat := 5

/-- Temporary lock duration (hard-coded `15 * 60 * 1000` milliseconds in
`authService.login`). -/
def lockDurationMs : Nat := 15 * 60 * 1000

/-- JavaScript truthiness of an optional string: `null` / `undefined` and the
empty string are falsy, everything else is truthy. -/
def optTruthy : Option String → Bool
  | none => false
  | some s => s != ""

/-- Sets `logoutAt` of the last history entry when it is still unset, exactly
like the `if (!lastLogin.logoutAt) lastLogin.logoutAt = new Date()` step of
`logoutDevice` / `logoutAllDevices`. -/
def closeLastHistory (now : Nat) : List LoginHistoryEntry → List LoginHistoryEntry
  | [] => []
  | [e] =>
    match e.logoutAt with
    | none => [{ e with logoutAt := some now }]
    | some _ => [e]
  | e :: e2 :: rest => e :: closeLastHistory now (e2 :: rest)

/-- In-place mutation of the device returned by `Array.prototype.find`: the
first element satisfying `p` is replaced by its image under `f`, the rest of
the list is untouched. -/
def updateFirstDevice (p : DeviceSession → Bool) (f : DeviceSession → DeviceSession) :
    List DeviceSession → List DeviceSession
  | [] => []
  | d :: rest => if p d then f d :: rest else d :: updateFirstDevice p f rest

/-- The audit entry pushed onto `refreshTokens` by `generateRefreshToken`: a
falsy `deviceId` is replaced by the sentinel `"unknown"`. -/
def refreshAuditEntry (token deviceId : String) (now : Nat) : RefreshTokenEntry :=
  { token := token,
    deviceId := if deviceId = "" then "unknown" else deviceId,
    createdAt := now }

/-- The in-place update `generateRefreshToken` applies to an existing matching
device session. -/
def rebindDevice (token : String) (ipAddress userAgent : Option String) (now : Nat)
    (d : DeviceSession) : DeviceSession :=
  { d with
    refreshToken := some token,
    loginCount := d.loginCount + 1,
    ipAddress := if optTruthy ipAddress then ipAddress else d.ipAddress,
    userAgent := if optTruthy userAgent then userAgent else d.userAgent,
    loginHistory := d.loginHistory ++ [{ loginAt := now, logoutAt := none }] }

/-- The fresh device session `generateRefreshToken` pushes when no existing
device matches. -/
def newDeviceSession (token deviceId : String) (ipAddress userAgent : Option String)
    (now : Nat) : DeviceSession :=
  { deviceId := deviceId,
    ipAddress := if optTruthy ipAddress then ipAddress else none,
    userAgent := if optTruthy userAgent then userAgent else none,
    loginCount := 1,
    refreshToken := some token,
    loginHistory := [{ loginAt := now, logoutAt := none }] }

/-- The device-session mutation of `generateRefreshToken`: only when
`deviceId` is truthy, the matching device is rebound or a new session is
pushed. -/
def bindDeviceSessions (devices : List DeviceSession) (token deviceId : String)
    (ipAddress userAgent : Option String) (now : Nat) : List DeviceSession :=
  if deviceId = "" then devices
  else
    match devices.find? (fun d => d.deviceId == deviceId) with
    | some _ =>
      updateFirstDevice (fun d => d.deviceId == deviceId)
        (rebindDevice token ipAddress userAgent now) devices
    | none => devices ++ [newDeviceSession token deviceId ipAddress userAgent now]

/-- `userLoginSchema.methods.generateRefreshToken`.  The freshly signed JWT is
the `token` argument.  Pushes an audit entry onto `refreshTokens` and applies
the device-session mutation; the two steps touch disjoint fields of the
record. -/
def generateRefreshToken (rec : UserLogin) (token deviceId : String)
    (ipAddress userAgent : Option String) (now : Nat) : UserLogin :=
  { rec with
    refreshTokens := rec.refreshTokens ++ [refreshAuditEntry token deviceId now],
    loggedInDevices := bindDeviceSessions rec.loggedInDevices token deviceId
      ipAddress userAgent now }

/-- `userLoginSchema.methods.verifyRefreshTokenForDevice`: false for a falsy
`deviceId`, false when no device matches, otherwise strict equality with the
device's `refreshToken`. -/
def verifyRefreshTokenForDevice (rec : UserLogin) (token deviceId : String) : Bool :=
  if deviceId = "" then false
  else
    match rec.loggedInDevices.find? (fun d => d.deviceId == deviceId) with
    | none => false
    | some d => d.refreshToken == some token

/-- The per-device part of `logoutDevice` / `logoutAllDevices`: close the open
history entry and clear the refresh token. -/
def logoutDeviceEntry (now : Nat) (d : DeviceSession) : DeviceSession :=
  { d with
    loginHistory := closeLastHistory now d.loginHistory,
    refreshToken := none }

/-- `userLoginSchema.methods.logoutDevice`: returns whether a device matched
together with the updated record. -/
def logoutDevice (rec : UserLogin) (deviceId : String) (now : Nat) : Bool × UserLogin :=
  if deviceId = "" then (false, rec)
  else
    match rec.loggedInDevices.find? (fun d => d.deviceId == deviceId) with
    | some _ =>
      (true, { rec with
        loggedInDevices := updateFirstDevice (fun d => d.deviceId == deviceId)
          (logoutDeviceEntry now) rec.loggedInDevices })
    | none => (false, rec)

/-- `userLoginSchema.methods.logoutAllDevices`: clears every device's refresh
token, closes every open history entry and empties `refreshTokens`. -/
def logoutAllDevices (rec : UserLogin) (now : Nat) : UserLogin :=
  { rec with
    loggedInDevices := rec.loggedInDevices.map (logoutDeviceEntry now),
    refreshTokens := [] }

/-- `userLoginSchema.methods.revokeRefreshToken`: filters the audit list and
returns `true` whenever `refreshTokens` is an array — which, lists being the
model of arrays, is always. -/
def revokeRefreshToken (rec : UserLogin) (token : String) : Bool × UserLogin :=
  (true, { rec with refreshTokens := rec.refreshTokens.filter (fun rt => rt.token != token) })

/-- `Math.ceil(ms / (1000 * 60))` on natural milliseconds. -/
def ceilMinutes (ms : Nat) : Nat := (ms + 59999) / 60000

/-- `authService.login` after record resolution: permanent-lock check,
temporary-lock check, password verification with failure counting and lock
escalation, external `canLogin`/`isActive` predicate, then failure-state reset
and token issuance.  Returns the outcome together with the persisted record. -/
def login (rec : UserLogin) (user : Option UserExt) (password deviceId : String)
    (ipAddress userAgent : Option String) (now : Nat) (freshToken : String) :
    Except LoginError String × UserLogin :=
  if rec.isPermanentlyLocked then
    (Except.error LoginError.accountLockedPermanent, rec)
  else
    match rec.lockUntil with
    | some lockUntil =>
      if now < lockUntil then
        (Except.error (LoginError.accountLockedTemporary (ceilMinutes (lockUntil - now))), rec)
      else loginVerify rec user password deviceId ipAddress userAgent now freshToken
    | none => loginVerify rec user password deviceId ipAddress userAgent now freshToken
where
  loginVerify (rec : UserLogin) (user : Option UserExt) (password deviceId : String)
      (ipAddress userAgent : Option String) (now : Nat) (freshToken : String) :
      Except LoginError String × UserLogin :=
    if password != rec.password then
      let attempts := rec.failedLoginAttempts + 1
      let rec' :=
        if failureThreshold ≤ attempts then
          { rec with
            failedLoginAttempts := attempts,
            lockLevel := 1,
            lockUntil := some (now + lockDurationMs) }
        else { rec with failedLoginAttempts := attempts }
      (Except.error LoginError.invalidCredentials, rec')
    else
      match user with
      | none => (Except.error LoginError.associatedUserNotFound, rec)
      | some u =>
        if !u.canLogin || !u.isActive then
          (Except.error LoginError.loginDisabled, rec)
        else
          let rec1 := { rec with
            failedLoginAttempts := 0,
            lockLevel := 0,
            lockUntil := none,
            isLoggedIn := true,
            lastLogin := some now }
          (Except.ok freshToken, generateRefreshToken rec1 freshToken deviceId ipAddress userAgent now)

/-- `authService.refreshTokens` after JWT signature verification and record
resolution: device-scoped token check, then rotation via
`generateRefreshToken` (called with `ipAddress`/`userAgent` defaulted). -/
def refreshTokensOp (rec : UserLogin) (refreshToken deviceId : String)
    (freshToken : String) (now : Nat) : Except Unit (UserLogin × String) :=
  if verifyRefreshTokenForDevice rec refreshToken deviceId then
    Except.ok (generateRefreshToken rec freshToken deviceId none none now, freshToken)
  else Except.error ()

/-- `authService.logout`: device logout plus the `isLoggedIn` recomputation
over the remaining devices. -/
def logoutOp (rec : UserLogin) (deviceId : String) (now : Nat) : Except Unit UserLogin :=
  match logoutDevice rec deviceId now with
  | (true, rec') =>
    if (rec'.loggedInDevices.filter (fun d => d.refreshToken != none)).length = 0 then
      Except.ok { rec' with isLoggedIn := false }
    else Except.ok rec'
  | (false, _) => Except.error ()

/-- `authService.logoutAllDevices`: model-level logout-all plus clearing the
`isLoggedIn` flag. -/
def logoutAllOp (rec : UserLogin) (now : Nat) : UserLogin :=
  { logoutAllDevices rec now with isLoggedIn := false }

/-- `authService.lockAccount`: sets the permanent lock, clears `isLoggedIn`
and force-logs-out every device. -/
def lockAccount (rec : UserLogin) (now : Nat) : UserLogin :=
  logoutAllDevices { rec with isPermanentlyLocked := true, isLoggedIn := false } now

/-- `authService.unlockAccount`: clears the permanent lock and the whole
failure-counting state. -/
def unlockAccount (rec : UserLogin) : UserLogin :=
  { rec with
    isPermanentlyLocked := false,
    failedLoginAttempts := 0,
    lockLevel := 0,
    lockUntil := none }

/-- `authService.changePassword`: verify the old password, store the new one,
then log out every device and clear `isLoggedIn`. -/
def changePassword (rec : UserLogin) (oldPassword newPassword : String) (now : Nat) :
    Except Unit UserLogin :=
  if oldPassword != rec.password then Except.error ()
  else
    let rec1 := { rec with password := newPassword }
    Except.ok { logoutAllDevices rec1 now with isLoggedIn := false }

/-- The data-model invariant relating device bindings to the audit list: every
non-null `refreshToken` of a device session occurs as a token of some
`refreshTokens` entry. -/
def currentTokensInAudit (rec : UserLogin) : Bool :=
  rec.loggedInDevices.all (fun d =>
    match d.refreshToken with
    | none => true
    | some t => rec.refreshTokens.any (fun e => e.token == t))

/-! ## Helper lemmas -/

theorem mem_updateFirstDevice {p : DeviceSession → Bool} {f : DeviceSession → DeviceSession}
    {l : List DeviceSession} {x : DeviceSession} (hx : x ∈ updateFirstDevice p f l) :
    x ∈ l ∨ ∃ d, d ∈ l ∧ x = f d := by
  induction l with
  | nil => simp [updateFirstDevice] at hx
  | cons d rest ih =>
    by_cases hp : p d
    · simp [updateFirstDevice, hp] at hx
      rcases hx with h | h
      · exact Or.inr ⟨d, by simp, h⟩
      · exact Or.inl (by simp [h])
    · simp [updateFirstDevice, hp] at hx
      rcases hx with h | h
      · exact Or.inl (by simp [h])
      · rcases ih h with h' | ⟨d', hd', hx'⟩
        · exact Or.inl (List.mem_cons_of_mem _ h')
        · exact Or.inr ⟨d', List.mem_cons_of_mem _ hd', hx'⟩

theorem find?_updateFirstDevice (p : DeviceSession → Bool) (f : DeviceSession → DeviceSession)
    (l : List DeviceSession) (hpf : ∀ d, p (f d) = p d) :
    (updateFirstDevice p f l).find? p = (l.find? p).map f := by
  induction l with
  | nil => rfl
  | cons d rest ih =>
    by_cases hp : p d
    · rw [updateFirstDevice, if_pos hp, List.find?_cons_of_pos _ hp,
        List.find?_cons_of_pos _ (by rw [hpf d]; exact hp)]
      rfl
    · rw [updateFirstDevice, if_neg hp, List.find?_cons_of_neg _ hp,
        List.find?_cons_of_neg _ hp, ih]

/-! ## Example records used by witnesses and counterexamples -/

/-- A device session holding the current refresh token `"t1"`. -/
def deviceA : DeviceSession :=
  { deviceId := "A", ipAddress := none, userAgent := none, loginCount := 1,
    refreshToken := some "t1", loginHistory := [{ loginAt := 0, logoutAt := none }] }

/-- A credential record with one logged-in device and a matching audit entry. -/
def recA : UserLogin :=
  { password := "pw",
    refreshTokens := [{ token := "t1", deviceId := "A", createdAt := 0 }],
    failedLoginAttempts := 0, lockLevel := 0, lockUntil := none,
    isPermanentlyLocked := false, isLoggedIn := true, lastLogin := some 0,
    loggedInDevices := [deviceA] }

/-- A fresh credential record with no sessions and no audit entries. -/
def recEmpty : UserLogin :=
  { password := "pw", refreshTokens := [], failedLoginAttempts := 0, lockLevel := 0,
    lockUntil := none, isPermanentlyLocked := false, isLoggedIn := false,
    lastLogin := none, loggedInDevices := [] }

/-! ## C4: revocation return value -/

/-- C4: the claim says `revoke` returns false when no audit entry matches; the
code returns true unconditionally.  At a record whose audit list contains no
entry for `"ghost"`, `revokeRefreshToken` still answers `true` while changing
nothing. -/
theorem revokeRefreshToken_true_without_match :
    (revokeRefreshToken recA "ghost").1 = true ∧
    recA.refreshTokens.all (fun e => e.token != "ghost") = true ∧
    (revokeRefreshToken recA "ghost").2 = recA := by decide

/-! ## C5: device-scoped verification -/

/-- C5: `verifyRefreshTokenForDevice` answers true exactly when the supplied
device id names a known device session whose current refresh token equals the
supplied token; historical audit entries play no role.  The hypotheses are the
reachable-record facts that stored device ids are truthy and pairwise
distinct. -/
theorem verifyRefreshTokenForDevice_iff (rec : UserLogin) (tok dev : String)
    (hids : ∀ d ∈ rec.loggedInDevices, d.deviceId ≠ "")
    (hnodup : (rec.loggedInDevices.map DeviceSession.deviceId).Nodup) :
    verifyRefreshTokenForDevice rec tok dev = true ↔
      ∃ d ∈ rec.loggedInDevices, d.deviceId = dev ∧ d.refreshToken = some tok := by
  unfold verifyRefreshTokenForDevice
  by_cases hdev : dev = ""
  · subst hdev
    rw [if_pos rfl]
    simp only [Bool.false_eq_true, false_iff]
    rintro ⟨d, hd, hdd, -⟩
    exact hids d hd hdd
  · rw [if_neg hdev]
    cases hfind : rec.loggedInDevices.find? (fun d => d.deviceId == dev) with
    | none =>
      simp only [Bool.false_eq_true, false_iff]
      rintro ⟨d, hd, hdd, -⟩
      have := List.find?_eq_none.mp hfind d hd
      simp [hdd] at this
    | some d0 =>
      have hd0mem := List.mem_of_find?_eq_some hfind
      have hd0dev : d0.deviceId = dev := by
        have := List.find?_some hfind
        simpa using this
      constructor
      · intro h
        exact ⟨d0, hd0mem, hd0dev, by simpa using h⟩
      · rintro ⟨d, hd, hdd, htok⟩
        have hdd0 : d = d0 :=
          List.inj_on_of_nodup_map hnodup hd hd0mem (by rw [hdd, hd0dev])
        subst hdd0
        simp [htok]

/-- Witness for C5 at a concrete record, token and device id. -/
theorem verifyRefreshTokenForDevice_iff_witness :
    ((∀ d ∈ recA.loggedInDevices, d.deviceId ≠ "") ∧
      (recA.loggedInDevices.map DeviceSession.deviceId).Nodup) ∧
    (verifyRefreshTokenForDevice recA "t1" "A" = true ↔
      ∃ d ∈ recA.loggedInDevices, d.deviceId = "A" ∧ d.refreshToken = some "t1") :=
  ⟨⟨by decide, by decide⟩,
    verifyRefreshTokenForDevice_iff recA "t1" "A" (by decide) (by decide)⟩

/-! ## C9: missing deviceId -/

/-- C9 counterexample: with a missing device id the operation is not rejected
and the audit entry carries the sentinel `"unknown"`, but no device session
for `"unknown"` is gained, contradicting the claim. -/
theorem generateRefreshToken_missing_device_no_session :
    ((generateRefreshToken recEmpty "tok1" "" none none 5).loggedInDevices.any
        (fun d => d.deviceId == "unknown")) = false ∧
    ((generateRefreshToken recEmpty "tok1" "" none none 5).refreshTokens.any
        (fun e => e.deviceId == "unknown" && e.token == "tok1")) = true := by decide

/-- C9 amended: a missing device id is not rejected — the fresh token is
issued, the audit entry carries deviceId `"unknown"` — but the device-session
list is left entirely unchanged. -/
theorem generateRefreshToken_missing_device (rec : UserLogin) (tok : String)
    (ip ua : Option String) (now : Nat) :
    (generateRefreshToken rec tok "" ip ua now).refreshTokens =
      rec.refreshTokens ++ [{ token := tok, deviceId := "unknown", createdAt := now }] ∧
    (generateRefreshToken rec tok "" ip ua now).loggedInDevices =
      rec.loggedInDevices := by
  constructor
  · simp [generateRefreshToken, refreshAuditEntry]
  · simp [generateRefreshToken, bindDeviceSessions]

/-! ## C7: successful login resets failure state -/

/-- C7: whenever `login` succeeds — so it passed the lockout evaluation, the
password check and the allowed-to-authenticate predicate — the persisted
record has `failedLoginAttempts = 0`, `lockLevel = 0`, `lockUntil = null`,
`isLoggedIn = true` and `lastLogin` set to the current time. -/
theorem login_success_resets_failure_state (rec : UserLogin) (user : Option UserExt)
    (pw dev : String) (ip ua : Option String) (now : Nat) (ftok tok : String)
    (rec' : UserLogin)
    (h : login rec user pw dev ip ua now ftok = (Except.ok tok, rec')) :
    rec'.failedLoginAttempts = 0 ∧ rec'.lockLevel = 0 ∧ rec'.lockUntil = none ∧
      rec'.isLoggedIn = true ∧ rec'.lastLogin = some now := by
  unfold login at h
  split at h
  · simp at h
  · split at h
    · split at h
      · simp at h
      · unfold login.loginVerify at h
        split at h
        · simp at h
        · split at h
          · simp at h
          · split at h
            · simp at h
            · simp only [Prod.mk.injEq] at h
              obtain ⟨-, h2⟩ := h
              subst h2
              exact ⟨rfl, rfl, rfl, rfl, rfl⟩
    · unfold login.loginVerify at h
      split at h
      · simp at h
      · split at h
        · simp at h
        · split at h
          · simp at h
          · simp only [Prod.mk.injEq] at h
            obtain ⟨-, h2⟩ := h
            subst h2
            exact ⟨rfl, rfl, rfl, rfl, rfl⟩

/-- The record persisted by a concrete successful login against `recA`. -/
def recAfterLoginA : UserLogin :=
  (login recA (some { canLogin := true, isActive := true }) "pw" "A" none none 10 "f1").2

/-- Witness for C7 at a concrete successful login. -/
theorem login_success_resets_failure_state_witness :
    login recA (some { canLogin := true, isActive := true }) "pw" "A" none none 10 "f1" =
      (Except.ok "f1", recAfterLoginA) ∧
    (recAfterLoginA.failedLoginAttempts = 0 ∧ recAfterLoginA.lockLevel = 0 ∧
      recAfterLoginA.lockUntil = none ∧ recAfterLoginA.isLoggedIn = true ∧
      recAfterLoginA.lastLogin = some 10) :=
  ⟨by rfl,
    login_success_resets_failure_state recA
      (some { canLogin := true, isActive := true }) "pw" "A" none none 10 "f1" "f1"
      recAfterLoginA (by rfl)⟩

/-! ## C8: disabled-login check ordering and frame -/

/-- C8: the external allowed-to-authenticate data is consulted only after
password verification — with a wrong password the outcome is independent of
the external user — and a `LoginDisabled` failure returns the record exactly
as it was, so `failedLoginAttempts`, `lockLevel` and `lockUntil` keep their
prior values. -/
theorem loginDisabled_after_password_and_frame (rec : UserLogin)
    (u1 u2 u : Option UserExt) (pw dev : String)
    (ip ua : Option String) (now : Nat) (ftok : String) :
    (pw ≠ rec.password →
      login rec u1 pw dev ip ua now ftok = login rec u2 pw dev ip ua now ftok) ∧
    ((login rec u pw dev ip ua now ftok).1 = Except.error LoginError.loginDisabled →
      (login rec u pw dev ip ua now ftok).2 = rec) := by
  constructor
  · intro hne
    have hb : (pw != rec.password) = true := by simpa [bne_iff_ne] using hne
    unfold login login.loginVerify
    simp only [hb, if_true]
  · intro h
    rcases hL : login rec u pw dev ip ua now ftok with ⟨res, rec'⟩
    rw [hL] at h
    simp only at h ⊢
    unfold login login.loginVerify at hL
    split at hL
    · simp only [Prod.mk.injEq] at hL
      obtain ⟨h1, h2⟩ := hL
      subst h1
      simp at h
    · split at hL
      · split at hL
        · simp only [Prod.mk.injEq] at hL
          obtain ⟨h1, h2⟩ := hL
          subst h1
          simp at h
        · split at hL
          · simp only [Prod.mk.injEq] at hL
            obtain ⟨h1, h2⟩ := hL
            subst h1
            simp at h
          · split at hL
            · simp only [Prod.mk.injEq] at hL
              obtain ⟨h1, h2⟩ := hL
              subst h1
              simp at h
            · split at hL
              · simp only [Prod.mk.injEq] at hL
                obtain ⟨h1, h2⟩ := hL
                exact h2.symm
              · simp only [Prod.mk.injEq] at hL
                obtain ⟨h1, h2⟩ := hL
                subst h1
                simp at h
      · split at hL
        · simp only [Prod.mk.injEq] at hL
          obtain ⟨h1, h2⟩ := hL
          subst h1
          simp at h
        · split at hL
          · simp only [Prod.mk.injEq] at hL
            obtain ⟨h1, h2⟩ := hL
            subst h1
            simp at h
          · split at hL
            · simp only [Prod.mk.injEq] at hL
              obtain ⟨h1, h2⟩ := hL
              exact h2.symm
            · simp only [Prod.mk.injEq] at hL
              obtain ⟨h1, h2⟩ := hL
              subst h1
              simp at h

/-- Witness for C8: a wrong-password attempt gives the same outcome whatever
the external user record is, and a concrete `LoginDisabled` failure returns
the record unchanged. -/
theorem loginDisabled_after_password_and_frame_witness :
    ("x" ≠ recA.password ∧
      login recA (some { canLogin := true, isActive := true }) "x" "A" none none 3 "f" =
        login recA none "x" "A" none none 3 "f") ∧
    ((login recA (some { canLogin := false, isActive := true }) "pw" "A" none none 3 "f").1 =
        Except.error LoginError.loginDisabled ∧
      (login recA (some { canLogin := false, isActive := true }) "pw" "A" none none 3 "f").2 =
        recA) :=
  ⟨⟨by decide,
    (loginDisabled_after_password_and_frame recA
      (some { canLogin := true, isActive := true }) none none "x" "A" none none 3 "f").1
      (by decide)⟩,
   ⟨by rfl,
    (loginDisabled_after_password_and_frame recA none none
      (some { canLogin := false, isActive := true }) "pw" "A" none none 3 "f").2
      (by rfl)⟩⟩

/-! ## Lemmas about logout-all and verification -/

theorem logoutAllDevices_refreshToken_none (rec : UserLogin) (now : Nat) :
    ∀ d ∈ (logoutAllDevices rec now).loggedInDevices, d.refreshToken = none := by
  intro d hd
  simp only [logoutAllDevices, List.mem_map] at hd
  obtain ⟨x, -, hx⟩ := hd
  rw [← hx]
  rfl

theorem verify_false_of_all_none (rec : UserLogin)
    (hnone : ∀ d ∈ rec.loggedInDevices, d.refreshToken = none) (tok dev : String) :
    verifyRefreshTokenForDevice rec tok dev = false := by
  unfold verifyRefreshTokenForDevice
  by_cases hdev : dev = ""
  · rw [if_pos hdev]
  · rw [if_neg hdev]
    cases hfind : rec.loggedInDevices.find? (fun d => d.deviceId == dev) with
    | none => rfl
    | some d =>
      have hd := List.mem_of_find?_eq_some hfind
      simp [hnone d hd]

/-! ## C6: password change invalidates every session -/

/-- C6: a `changePassword` call whose old password verifies replaces the
stored secret and unconditionally invalidates every session: afterwards every
device's refresh token is null, `isLoggedIn` is false, and no token verifies
for any device any more. -/
theorem changePassword_invalidates_sessions (rec : UserLogin)
    (oldPw newPw : String) (now : Nat) (hold : oldPw = rec.password) :
    ∃ rec', changePassword rec oldPw newPw now = Except.ok rec' ∧
      rec'.password = newPw ∧ rec'.isLoggedIn = false ∧
      (∀ d ∈ rec'.loggedInDevices, d.refreshToken = none) ∧
      (∀ tok dev, verifyRefreshTokenForDevice rec' tok dev = false) := by
  have hb : (oldPw != rec.password) = false := by simp [hold]
  refine ⟨{ logoutAllDevices { rec with password := newPw } now with isLoggedIn := false },
    ?_, rfl, rfl, ?_, ?_⟩
  · unfold changePassword
    rw [hb]
    simp
  · intro d hd
    exact logoutAllDevices_refreshToken_none { rec with password := newPw } now d hd
  · intro tok dev
    exact verify_false_of_all_none _
      (logoutAllDevices_refreshToken_none { rec with password := newPw } now) tok dev

/-- Witness for C6 at a concrete record and matching old password. -/
theorem changePassword_invalidates_sessions_witness :
    "pw" = recA.password ∧
    (∃ rec', changePassword recA "pw" "npw" 7 = Except.ok rec' ∧
      rec'.password = "npw" ∧ rec'.isLoggedIn = false ∧
      (∀ d ∈ rec'.loggedInDevices, d.refreshToken = none) ∧
      (∀ tok dev, verifyRefreshTokenForDevice rec' tok dev = false)) :=
  ⟨by decide, changePassword_invalidates_sessions recA "pw" "npw" 7 (by decide)⟩

/-! ## C10: administrative permanent lock -/

theorem closeLastHistory_cons_of_ne_nil (now : Nat) (e : LoginHistoryEntry)
    (l : List LoginHistoryEntry) (hl : l ≠ []) :
    closeLastHistory now (e :: l) = e :: closeLastHistory now l := by
  cases l with
  | nil => exact absurd rfl hl
  | cons e2 rest => rfl

theorem closeLastHistory_ne_nil (now : Nat) (l : List LoginHistoryEntry) (hl : l ≠ []) :
    closeLastHistory now l ≠ [] := by
  cases l with
  | nil => exact absurd rfl hl
  | cons e rest =>
    cases rest with
    | nil => cases he : e.logoutAt <;> simp [closeLastHistory, he]
    | cons e2 rest2 => simp [closeLastHistory]

theorem closeLastHistory_idem (now now2 : Nat) (l : List LoginHistoryEntry) :
    closeLastHistory now2 (closeLastHistory now l) = closeLastHistory now l := by
  induction l with
  | nil => rfl
  | cons e rest ih =>
    cases rest with
    | nil => cases he : e.logoutAt <;> simp [closeLastHistory, he]
    | cons e2 rest2 =>
      rw [closeLastHistory_cons_of_ne_nil now e (e2 :: rest2) (by simp),
        closeLastHistory_cons_of_ne_nil now2 e _
          (closeLastHistory_ne_nil now (e2 :: rest2) (by simp)),
        ih]

theorem logoutDeviceEntry_idem (now now2 : Nat) (d : DeviceSession) :
    logoutDeviceEntry now2 (logoutDeviceEntry now d) = logoutDeviceEntry now d := by
  simp [logoutDeviceEntry, closeLastHistory_idem]

/-- C10: `lockAccount` sets the permanent lock, clears every device's current
refresh token, is idempotent, and afterwards every login attempt — whatever
the password and external user — fails with the permanent-lock error and
leaves the record unchanged. -/
theorem lockAccount_permanent_lock (rec : UserLogin) (now now2 : Nat) :
    (lockAccount rec now).isPermanentlyLocked = true ∧
    (∀ d ∈ (lockAccount rec now).loggedInDevices, d.refreshToken = none) ∧
    lockAccount (lockAccount rec now) now2 = lockAccount rec now ∧
    (∀ user pw dev ip ua t ftok,
      login (lockAccount rec now) user pw dev ip ua t ftok =
        (Except.error LoginError.accountLockedPermanent, lockAccount rec now)) := by
  refine ⟨rfl, ?_, ?_, ?_⟩
  · intro d hd
    exact logoutAllDevices_refreshToken_none _ now d hd
  · have hmap : ∀ l : List DeviceSession,
        (l.map (logoutDeviceEntry now)).map (logoutDeviceEntry now2) =
          l.map (logoutDeviceEntry now) := by
      intro l
      induction l with
      | nil => rfl
      | cons d rest ih => simp [ih, logoutDeviceEntry_idem]
    simp [lockAccount, logoutAllDevices, hmap]
  · intro user pw dev ip ua t ftok
    have hperm : (lockAccount rec now).isPermanentlyLocked = true := rfl
    unfold login
    rw [if_pos hperm]

/-- Witness for C10 at a concrete record with an open device session. -/
theorem lockAccount_permanent_lock_witness :
    (lockAccount recA 1).isPermanentlyLocked = true ∧
    (∀ d ∈ (lockAccount recA 1).loggedInDevices, d.refreshToken = none) ∧
    lockAccount (lockAccount recA 1) 2 = lockAccount recA 1 ∧
    (∀ user pw dev ip ua t ftok,
      login (lockAccount recA 1) user pw dev ip ua t ftok =
        (Except.error LoginError.accountLockedPermanent, lockAccount recA 1)) :=
  lockAccount_permanent_lock recA 1 2

/-! ## C1: brute-force lockout escalation -/

/-- A failed password check increments the counter and, at the threshold,
installs the temporary lock. -/
theorem login_fail_step (rec : UserLogin) (u : Option UserExt) (pw dev : String)
    (ip ua : Option String) (now : Nat) (f : String)
    (hperm : rec.isPermanentlyLocked = false)
    (hlock : rec.lockUntil = none)
    (hw : pw ≠ rec.password) :
    login rec u pw dev ip ua now f =
      (Except.error LoginError.invalidCredentials,
        if failureThreshold ≤ rec.failedLoginAttempts + 1 then
          { rec with
            failedLoginAttempts := rec.failedLoginAttempts + 1,
            lockLevel := 1,
            lockUntil := some (now + lockDurationMs) }
        else { rec with failedLoginAttempts := rec.failedLoginAttempts + 1 }) := by
  have hb : (pw != rec.password) = true := by simpa [bne_iff_ne] using hw
  unfold login login.loginVerify
  rw [hperm, hlock]
  simp [hb]

/-- Sequence of login attempts with a fixed candidate password, one per listed
timestamp; returns the final persisted record. -/
def failSeq (rec : UserLogin) (u : Option UserExt) (pw dev : String)
    (ip ua : Option String) (f : String) : List Nat → UserLogin
  | [] => rec
  | t :: ts => failSeq (login rec u pw dev ip ua t f).2 u pw dev ip ua f ts

/-- C1: starting from a fresh unlocked record, four consecutive failed logins
leave no temporary lock, the fifth sets `lockLevel = 1` and
`lockUntil = now + 15 minutes`, every further attempt before `lockUntil` —
whatever the password — fails with `AccountLockedTemporary` carrying a
positive remaining time, and once the lock duration has elapsed a correct
password for an allowed user succeeds again. -/
theorem lockout_after_five_failures (rec : UserLogin) (u : Option UserExt)
    (wrongPw dev : String) (ip ua : Option String) (f : String)
    (t1 t2 t3 t4 t5 : Nat)
    (hperm : rec.isPermanentlyLocked = false)
    (hcnt : rec.failedLoginAttempts = 0)
    (hlock : rec.lockUntil = none)
    (hw : wrongPw ≠ rec.password) :
    (failSeq rec u wrongPw dev ip ua f [t1, t2, t3, t4]).lockUntil = none ∧
    (failSeq rec u wrongPw dev ip ua f [t1, t2, t3, t4, t5]).lockLevel = 1 ∧
    (failSeq rec u wrongPw dev ip ua f [t1, t2, t3, t4, t5]).lockUntil =
      some (t5 + lockDurationMs) ∧
    (∀ t pw2 u2 f2, t < t5 + lockDurationMs →
      ∃ m, 0 < m ∧
        (login (failSeq rec u wrongPw dev ip ua f [t1, t2, t3, t4, t5]) u2 pw2 dev ip ua t f2).1 =
          Except.error (LoginError.accountLockedTemporary m)) ∧
    (∀ t u2 f2, t5 + lockDurationMs ≤ t → u2.canLogin = true → u2.isActive = true →
      (login (failSeq rec u wrongPw dev ip ua f [t1, t2, t3, t4, t5]) (some u2)
          rec.password dev ip ua t f2).1 = Except.ok f2) := by
  have e1 : (login rec u wrongPw dev ip ua t1 f).2 = { rec with failedLoginAttempts := 1 } := by
    rw [login_fail_step rec u wrongPw dev ip ua t1 f hperm hlock hw]
    simp [hcnt, failureThreshold]
  have e2 : (login { rec with failedLoginAttempts := 1 } u wrongPw dev ip ua t2 f).2 =
      { rec with failedLoginAttempts := 2 } := by
    rw [login_fail_step { rec with failedLoginAttempts := 1 } u wrongPw dev ip ua t2 f
      hperm hlock hw]
    simp [failureThreshold]
  have e3 : (login { rec with failedLoginAttempts := 2 } u wrongPw dev ip ua t3 f).2 =
      { rec with failedLoginAttempts := 3 } := by
    rw [login_fail_step { rec with failedLoginAttempts := 2 } u wrongPw dev ip ua t3 f
      hperm hlock hw]
    simp [failureThreshold]
  have e4 : (login { rec with failedLoginAttempts := 3 } u wrongPw dev ip ua t4 f).2 =
      { rec with failedLoginAttempts := 4 } := by
    rw [login_fail_step { rec with failedLoginAttempts := 3 } u wrongPw dev ip ua t4 f
      hperm hlock hw]
    simp [failureThreshold]
  have e5 : (login { rec with failedLoginAttempts := 4 } u wrongPw dev ip ua t5 f).2 =
      { rec with
        failedLoginAttempts := 5,
        lockLevel := 1,
        lockUntil := some (t5 + lockDurationMs) } := by
    rw [login_fail_step { rec with failedLoginAttempts := 4 } u wrongPw dev ip ua t5 f
      hperm hlock hw]
    simp [failureThreshold]
  have h4 : failSeq rec u wrongPw dev ip ua f [t1, t2, t3, t4] =
      { rec with failedLoginAttempts := 4 } := by
    simp only [failSeq]
    rw [e1, e2, e3, e4]
  have h5 : failSeq rec u wrongPw dev ip ua f [t1, t2, t3, t4, t5] =
      { rec with
        failedLoginAttempts := 5,
        lockLevel := 1,
        lockUntil := some (t5 + lockDurationMs) } := by
    simp only [failSeq]
    rw [e1, e2, e3, e4, e5]
  refine ⟨by rw [h4]; exact hlock, by rw [h5], by rw [h5], ?_, ?_⟩
  · intro t pw2 u2 f2 ht
    rw [h5]
    refine ⟨ceilMinutes (t5 + lockDurationMs - t), ?_, ?_⟩
    · unfold ceilMinutes
      exact Nat.div_pos (by omega) (by norm_num)
    · simp [login, hperm, ht]
  · intro t u2 f2 hge hcan hact
    have hnotlt : ¬ t < t5 + lockDurationMs := Nat.not_lt.mpr hge
    rw [h5]
    simp [login, login.loginVerify, hperm, hnotlt, hcan, hact]

/-- Witness for C1: the whole lockout scenario run on a concrete record. -/
theorem lockout_after_five_failures_witness :
    (recEmpty.isPermanentlyLocked = false ∧ recEmpty.failedLoginAttempts = 0 ∧
      recEmpty.lockUntil = none ∧ "x" ≠ recEmpty.password) ∧
    ((failSeq recEmpty none "x" "A" none none "f" [1, 2, 3, 4]).lockUntil = none ∧
      (failSeq recEmpty none "x" "A" none none "f" [1, 2, 3, 4, 5]).lockLevel = 1 ∧
      (failSeq recEmpty none "x" "A" none none "f" [1, 2, 3, 4, 5]).lockUntil =
        some (5 + lockDurationMs) ∧
      (∀ t pw2 u2 f2, t < 5 + lockDurationMs →
        ∃ m, 0 < m ∧
          (login (failSeq recEmpty none "x" "A" none none "f" [1, 2, 3, 4, 5]) u2 pw2 "A"
              none none t f2).1 =
            Except.error (LoginError.accountLockedTemporary m)) ∧
      (∀ t u2 f2, 5 + lockDurationMs ≤ t → u2.canLogin = true → u2.isActive = true →
        (login (failSeq recEmpty none "x" "A" none none "f" [1, 2, 3, 4, 5]) (some u2)
            recEmpty.password "A" none none t f2).1 = Except.ok f2)) :=
  ⟨⟨rfl, rfl, rfl, by decide⟩,
    lockout_after_five_failures recEmpty none "x" "A" none none "f" 1 2 3 4 5
      rfl rfl rfl (by decide)⟩

/-! ## C2: refresh rotation is single-use -/

theorem bindDeviceSessions_found (devices : List DeviceSession) (token dev : String)
    (ip ua : Option String) (now : Nat) (d0 : DeviceSession)
    (hdev : dev ≠ "")
    (hfind : devices.find? (fun d => d.deviceId == dev) = some d0) :
    bindDeviceSessions devices token dev ip ua now =
      updateFirstDevice (fun d => d.deviceId == dev)
        (rebindDevice token ip ua now) devices := by
  unfold bindDeviceSessions
  rw [if_neg hdev, hfind]

/-- C2: a successful refresh replaces the device binding with the newly
issued token — the old token no longer verifies for that device — while every
pre-existing audit entry, the rotated-away token included, stays in
`refreshTokens`.  The freshness hypothesis `newTok ≠ oldTok` models the token
issuer producing a distinct signature. -/
theorem refresh_rotation_single_use (rec : UserLogin) (oldTok newTok dev : String)
    (now : Nat)
    (hver : verifyRefreshTokenForDevice rec oldTok dev = true)
    (hne : newTok ≠ oldTok) :
    ∃ rec', refreshTokensOp rec oldTok dev newTok now = Except.ok (rec', newTok) ∧
      (∃ d, rec'.loggedInDevices.find? (fun d => d.deviceId == dev) = some d ∧
        d.refreshToken = some newTok) ∧
      verifyRefreshTokenForDevice rec' oldTok dev = false ∧
      (∀ e ∈ rec.refreshTokens, e ∈ rec'.refreshTokens) := by
  have hver' := hver
  unfold verifyRefreshTokenForDevice at hver'
  by_cases hdev : dev = ""
  · rw [if_pos hdev] at hver'
    simp at hver'
  · rw [if_neg hdev] at hver'
    cases hfind : rec.loggedInDevices.find? (fun d => d.deviceId == dev) with
    | none =>
      rw [hfind] at hver'
      simp at hver'
    | some d0 =>
      have hpf : ∀ d, ((rebindDevice newTok none none now d).deviceId == dev) =
          (d.deviceId == dev) := fun d => rfl
      have hdevs : (generateRefreshToken rec newTok dev none none now).loggedInDevices =
          updateFirstDevice (fun d => d.deviceId == dev)
            (rebindDevice newTok none none now) rec.loggedInDevices := by
        show bindDeviceSessions rec.loggedInDevices newTok dev none none now = _
        exact bindDeviceSessions_found rec.loggedInDevices newTok dev none none now d0
          hdev hfind
      have hfind' : (generateRefreshToken rec newTok dev none none now).loggedInDevices.find?
          (fun d => d.deviceId == dev) = some (rebindDevice newTok none none now d0) := by
        rw [hdevs, find?_updateFirstDevice _ _ _ hpf, hfind]
        rfl
      refine ⟨generateRefreshToken rec newTok dev none none now, ?_, ?_, ?_, ?_⟩
      · unfold refreshTokensOp
        rw [if_pos hver]
      · exact ⟨rebindDevice newTok none none now d0, hfind', rfl⟩
      · unfold verifyRefreshTokenForDevice
        rw [if_neg hdev, hfind']
        simp [rebindDevice, hne]
      · intro e he
        show e ∈ rec.refreshTokens ++ [refreshAuditEntry newTok dev now]
        exact List.mem_append_left _ he

/-- Witness for C2: a concrete rotation of token `"t1"` into `"t2"`. -/
theorem refresh_rotation_single_use_witness :
    (verifyRefreshTokenForDevice recA "t1" "A" = true ∧ "t2" ≠ "t1") ∧
    (∃ rec', refreshTokensOp recA "t1" "A" "t2" 30 = Except.ok (rec', "t2") ∧
      (∃ d, rec'.loggedInDevices.find? (fun d => d.deviceId == "A") = some d ∧
        d.refreshToken = some "t2") ∧
      verifyRefreshTokenForDevice rec' "t1" "A" = false ∧
      (∀ e ∈ recA.refreshTokens, e ∈ rec'.refreshTokens)) :=
  ⟨⟨by decide, by decide⟩,
    refresh_rotation_single_use recA "t1" "t2" "A" 30 (by decide) (by decide)⟩

/-! ## C3: the current-token-in-audit invariant -/

/-- C3 counterexample: revoking a token that is still a device's current
refresh token breaks the invariant, because `revokeRefreshToken` filters only
the audit list. -/
theorem currentTokensInAudit_broken_by_revoke :
    currentTokensInAudit recA = true ∧
    currentTokensInAudit (revokeRefreshToken recA "t1").2 = false := by decide

theorem currentTokensInAudit_of_fields (rec rec' : UserLogin)
    (hdev : rec'.loggedInDevices = rec.loggedInDevices)
    (htok : rec'.refreshTokens = rec.refreshTokens)
    (h : currentTokensInAudit rec = true) : currentTokensInAudit rec' = true := by
  unfold currentTokensInAudit at h ⊢
  rw [hdev, htok]
  exact h

theorem currentTokensInAudit_of_all_none (rec : UserLogin)
    (h : ∀ d ∈ rec.loggedInDevices, d.refreshToken = none) :
    currentTokensInAudit rec = true := by
  rw [currentTokensInAudit, List.all_eq_true]
  intro d hd
  simp [h d hd]

theorem mem_bindDeviceSessions {devices : List DeviceSession} {token dev : String}
    {ip ua : Option String} {now : Nat} {x : DeviceSession}
    (hx : x ∈ bindDeviceSessions devices token dev ip ua now) :
    x ∈ devices ∨ x.refreshToken = some token := by
  unfold bindDeviceSessions at hx
  by_cases hdev : dev = ""
  · rw [if_pos hdev] at hx
    exact Or.inl hx
  · rw [if_neg hdev] at hx
    cases hfind : devices.find? (fun d => d.deviceId == dev) with
    | some d0 =>
      rw [hfind] at hx
      rcases mem_updateFirstDevice hx with h | ⟨d, hd, hxd⟩
      · exact Or.inl h
      · subst hxd
        exact Or.inr rfl
    | none =>
      rw [hfind] at hx
      rcases List.mem_append.mp hx with h | h
      · exact Or.inl h
      · simp at h
        subst h
        exact Or.inr rfl

theorem currentTokensInAudit_generateRefreshToken (rec : UserLogin)
    (tok dev : String) (ip ua : Option String) (now : Nat)
    (h : currentTokensInAudit rec = true) :
    currentTokensInAudit (generateRefreshToken rec tok dev ip ua now) = true := by
  rw [currentTokensInAudit, List.all_eq_true] at h
  rw [currentTokensInAudit, List.all_eq_true]
  intro d hd
  have hd' : d ∈ bindDeviceSessions rec.loggedInDevices tok dev ip ua now := hd
  have hrt : (generateRefreshToken rec tok dev ip ua now).refreshTokens =
      rec.refreshTokens ++ [refreshAuditEntry tok dev now] := rfl
  rcases mem_bindDeviceSessions hd' with hmem | htok
  · have hold := h d hmem
    cases hdtok : d.refreshToken with
    | none => simp [hdtok]
    | some t =>
      rw [hdtok] at hold
      simp only at hold
      simp only [hdtok, hrt, List.any_eq_true] at *
      obtain ⟨e, he, het⟩ := hold
      exact ⟨e, List.mem_append_left _ he, het⟩
  · rw [htok]
    simp only [hrt, List.any_eq_true]
    exact ⟨refreshAuditEntry tok dev now, List.mem_append_right _ (by simp),
      by simp [refreshAuditEntry]⟩

/-- C3 amended: the audit invariant — every device's non-null current refresh
token appears in `refreshTokens` — is preserved by login, refresh, logout,
logout-all, change-password, lock and unlock; revocation preserves it only
when the revoked token is not any device's current token, since
`revokeRefreshToken` filters the audit list without touching device
bindings. -/
theorem currentTokensInAudit_preserved (rec : UserLogin)
    (hinv : currentTokensInAudit rec = true) :
    (∀ u pw dev ip ua now f,
      currentTokensInAudit (login rec u pw dev ip ua now f).2 = true) ∧
    (∀ tok dev f now rec' s, refreshTokensOp rec tok dev f now = Except.ok (rec', s) →
      currentTokensInAudit rec' = true) ∧
    (∀ dev now rec', logoutOp rec dev now = Except.ok rec' →
      currentTokensInAudit rec' = true) ∧
    (∀ now, currentTokensInAudit (logoutAllOp rec now) = true) ∧
    (∀ oldPw newPw now rec', changePassword rec oldPw newPw now = Except.ok rec' →
      currentTokensInAudit rec' = true) ∧
    (∀ now, currentTokensInAudit (lockAccount rec now) = true) ∧
    currentTokensInAudit (unlockAccount rec) = true ∧
    (∀ tok, (∀ d ∈ rec.loggedInDevices, d.refreshToken ≠ some tok) →
      currentTokensInAudit (revokeRefreshToken rec tok).2 = true) := by
  refine ⟨?_, ?_, ?_, ?_, ?_, ?_, ?_, ?_⟩
  · -- login
    intro u pw dev ip ua now f
    rcases hL : login rec u pw dev ip ua now f with ⟨res, rec'⟩
    unfold login login.loginVerify at hL
    split at hL
    · simp only [Prod.mk.injEq] at hL
      exact hL.2 ▸ hinv
    · split at hL
      · split at hL
        · simp only [Prod.mk.injEq] at hL
          exact hL.2 ▸ hinv
        · split at hL
          · simp only [Prod.mk.injEq] at hL
            obtain ⟨-, h2⟩ := hL
            split at h2 <;>
              exact currentTokensInAudit_of_fields rec _ (by rw [← h2]) (by rw [← h2]) hinv
          · split at hL
            · simp only [Prod.mk.injEq] at hL
              exact hL.2 ▸ hinv
            · split at hL
              · simp only [Prod.mk.injEq] at hL
                exact hL.2 ▸ hinv
              · simp only [Prod.mk.injEq] at hL
                obtain ⟨-, h2⟩ := hL
                rw [← h2]
                exact currentTokensInAudit_generateRefreshToken _ f dev ip ua now
                  (currentTokensInAudit_of_fields rec _ rfl rfl hinv)
      · split at hL
        · simp only [Prod.mk.injEq] at hL
          obtain ⟨-, h2⟩ := hL
          split at h2 <;>
            exact currentTokensInAudit_of_fields rec _ (by rw [← h2]) (by rw [← h2]) hinv
        · split at hL
          · simp only [Prod.mk.injEq] at hL
            exact hL.2 ▸ hinv
          · split at hL
            · simp only [Prod.mk.injEq] at hL
              exact hL.2 ▸ hinv
            · simp only [Prod.mk.injEq] at hL
              obtain ⟨-, h2⟩ := hL
              rw [← h2]
              exact currentTokensInAudit_generateRefreshToken _ f dev ip ua now
                (currentTokensInAudit_of_fields rec _ rfl rfl hinv)
  · -- refresh
    intro tok dev f now rec' s h
    unfold refreshTokensOp at h
    split at h
    · simp only [Except.ok.injEq, Prod.mk.injEq] at h
      rw [← h.1]
      exact currentTokensInAudit_generateRefreshToken rec f dev none none now hinv
    · simp at h
  · -- logout
    intro dev now rec' h
    unfold logoutOp at h
    rcases hLD : logoutDevice rec dev now with ⟨b, r⟩
    rw [hLD] at h
    cases b with
    | false => simp at h
    | true =>
      have hr : currentTokensInAudit r = true := by
        unfold logoutDevice at hLD
        split at hLD
        · simp only [Prod.mk.injEq] at hLD
          exact absurd hLD.1.symm (by simp)
        · split at hLD
          · simp only [Prod.mk.injEq] at hLD
            obtain ⟨-, h2⟩ := hLD
            rw [← h2]
            rw [currentTokensInAudit, List.all_eq_true]
            intro d hd
            rcases mem_updateFirstDevice hd with hmem | ⟨d0, hd0, hdd⟩
            · have := (List.all_eq_true.mp hinv) d hmem
              exact this
            · subst hdd
              simp [logoutDeviceEntry]
          · simp only [Prod.mk.injEq] at hLD
            exact absurd hLD.1.symm (by simp)
      replace h :
          (if (r.loggedInDevices.filter (fun d => d.refreshToken != none)).length = 0 then
            Except.ok { r with isLoggedIn := false } else Except.ok r) = Except.ok rec' := h
      by_cases hc : (r.loggedInDevices.filter (fun d => d.refreshToken != none)).length = 0
      · rw [if_pos hc] at h
        cases h
        exact currentTokensInAudit_of_fields r _ rfl rfl hr
      · rw [if_neg hc] at h
        cases h
        exact hr
  · -- logoutAll
    intro now
    exact currentTokensInAudit_of_all_none _
      (fun d hd => logoutAllDevices_refreshToken_none rec now d hd)
  · -- changePassword
    intro oldPw newPw now rec' h
    unfold changePassword at h
    split at h
    · simp at h
    · simp only [Except.ok.injEq] at h
      rw [← h]
      exact currentTokensInAudit_of_all_none _
        (fun d hd => logoutAllDevices_refreshToken_none { rec with password := newPw } now d hd)
  · -- lockAccount
    intro now
    exact currentTokensInAudit_of_all_none _
      (fun d hd => logoutAllDevices_refreshToken_none
        { rec with isPermanentlyLocked := true, isLoggedIn := false } now d hd)
  · -- unlockAccount
    exact currentTokensInAudit_of_fields rec _ rfl rfl hinv
  · -- revoke under the side condition
    intro tok hno
    rw [currentTokensInAudit, List.all_eq_true]
    intro d hd
    have hdmem : d ∈ rec.loggedInDevices := hd
    cases hdtok : d.refreshToken with
    | none => simp [hdtok]
    | some t =>
      have hold := (List.all_eq_true.mp hinv) d hdmem
      rw [hdtok] at hold
      simp only at hold
      have hne : t ≠ tok := by
        intro hEq
        exact hno d hdmem (by rw [hdtok, hEq])
      simp only [hdtok, List.any_eq_true] at *
      obtain ⟨e, he, het⟩ := hold
      have hetok : e.token = t := by simpa using het
      refine ⟨e, ?_, het⟩
      show e ∈ rec.refreshTokens.filter (fun rt => rt.token != tok)
      rw [List.mem_filter]
      exact ⟨he, by simp [hetok, hne]⟩

/-- Witness for the amended C3 at a concrete record satisfying the
invariant. -/
theorem currentTokensInAudit_preserved_witness :
    currentTokensInAudit recA = true ∧
    ((∀ u pw dev ip ua now f,
        currentTokensInAudit (login recA u pw dev ip ua now f).2 = true) ∧
      (∀ tok dev f now rec' s, refreshTokensOp recA tok dev f now = Except.ok (rec', s) →
        currentTokensInAudit rec' = true) ∧
      (∀ dev now rec', logoutOp recA dev now = Except.ok rec' →
        currentTokensInAudit rec' = true) ∧
      (∀ now, currentTokensInAudit (logoutAllOp recA now) = true) ∧
      (∀ oldPw newPw now rec', changePassword recA oldPw newPw now = Except.ok rec' →
        currentTokensInAudit rec' = true) ∧
      (∀ now, currentTokensInAudit (lockAccount recA now) = true) ∧
      currentTokensInAudit (unlockAccount recA) = true ∧
      (∀ tok, (∀ d ∈ recA.loggedInDevices, d.refreshToken ≠ some tok) →
        currentTokensInAudit (revokeRefreshToken recA tok).2 = true)) :=
  ⟨by decide, currentTokensInAudit_preserved recA (by decide)⟩
